import Mathlib

/-!
Shallow embedding of the `AnalyticsService` batching dispatcher from
`src/app.js` (the queue-and-flush example class of the repository).

Modelling choices:
* JS numbers used for metric arithmetic (average flush time) are modelled
  as rationals `ℚ`; counters, queue lengths and millisecond delays are `Nat`.
* The network delivery call (`fetch`) is external nondeterminism.  It is
  modelled by an oracle `Nat → Bool` indexed by a global delivery-attempt
  counter: `oracle i = true` means the `i`-th attempt ever made succeeds
  (2xx response), `false` means it fails (non-2xx or transport error).
  The attempt counter `idx` is threaded through every operation.
* `Date.now()` durations are not computed; each flush takes its observed
  duration as an explicit parameter, exactly as the spec's claims quantify
  over "observed durations t1..tk".
* Thrown errors are values of `SendError`: `deliveryError i` is the error
  produced by failed attempt number `i` (so "the last delivery error" is
  checkable), `noAttempts` is the fresh generic error thrown when the
  retry loop made no attempt at all (`retryAttempts = 0`).
* `setInterval`/`clearInterval` are modelled by a boolean `flushTimerActive`
  on the state; `shutdown` clears it.  The `while` drain loop of `shutdown`
  is modelled with explicit fuel, so non-termination is observable as the
  result `none` for every fuel.
-/

/-- Configuration record, from the `AnalyticsConfig` interface. -/
structure AnalyticsConfig where
  apiEndpoint : String
  batchSize : Nat
  flushInterval : Nat
  retryAttempts : Nat
deriving DecidableEq, Repr

/-- Event record, from the `EventData` interface.  The source's property bag
has opaque values (`Record<string, unknown>`); it is modelled as a list of
string key/value pairs, which no operation of the service inspects. -/
structure EventData where
  eventType : String
  userId : String
  properties : List (String × String)
  timestamp : Nat
deriving DecidableEq, Repr

/-- Metrics record, from the `Metrics` interface.  `averageFlushTime` is a
JS number, modelled as a rational. -/
structure Metrics where
  totalEvents : Nat
  successfulFlushes : Nat
  failedFlushes : Nat
  averageFlushTime : ℚ
deriving DecidableEq, Repr

/-- Errors thrown by `sendEvents`: the delivery error of a concrete failed
attempt, or the generic `new Error('Failed to send events after all retry
attempts')` thrown when `lastError` is still null. -/
inductive SendError where
  | deliveryError (idx : Nat)
  | noAttempts
deriving DecidableEq, Repr

/-- The mutable fields of the `AnalyticsService` class: configuration,
pending queue, mutual-exclusion flag, periodic-timer handle (modelled as a
boolean) and metrics. -/
structure AnalyticsService where
  config : AnalyticsConfig
  eventQueue : List EventData
  isFlushInProgress : Bool
  flushTimerActive : Bool
  metrics : Metrics
deriving DecidableEq, Repr

namespace AnalyticsService

/-- The constructor plus `initializeService`: empty queue, zeroed metrics,
flag down, periodic timer started. -/
def mk' (config : AnalyticsConfig) : AnalyticsService :=
  { config := config
    eventQueue := []
    isFlushInProgress := false
    flushTimerActive := true
    metrics := { totalEvents := 0, successfulFlushes := 0, failedFlushes := 0,
                 averageFlushTime := 0 } }

/-- `getMetrics()`: a copy of the current metrics record. -/
def getMetrics (s : AnalyticsService) : Metrics :=
  s.metrics

/-- `updateAverageFlushTime(newTime)`: incremental running average, computed
from the prior average and the successful-flush count only.  In the source it
is called after `successfulFlushes` has already been incremented. -/
def updateAverageFlushTime (m : Metrics) (newTime : ℚ) : Metrics :=
  let totalFlushes := m.successfulFlushes
  { m with averageFlushTime :=
      (m.averageFlushTime * ((totalFlushes : ℚ) - 1) + newTime) / (totalFlushes : ℚ) }

/-- Result of one `sendEvents` call: the outcome (unit on success, thrown
error on failure), how many delivery attempts were made, the backoff waits
(in ms) performed between attempts, and the next global attempt index. -/
structure SendResult where
  result : Except SendError Unit
  attemptsMade : Nat
  waits : List Nat
  nextIdx : Nat
deriving Repr

/-- The retry loop body of `sendEvents`: `remaining` attempts left,
`attempt` is the 1-based loop counter (used in the backoff exponent),
`idx` the global attempt index consumed by the oracle.  A wait of
`2 ^ attempt * 1000` ms happens only when the failed attempt is not the
last one (`attempt < retryAttempts` in the source). -/
def sendEventsAux (oracle : Nat → Bool) : Nat → Nat → Nat → SendResult
  | 0, _, idx => ⟨.error .noAttempts, 0, [], idx⟩
  | 1, _, idx =>
      if oracle idx then ⟨.ok (), 1, [], idx + 1⟩
      else ⟨.error (.deliveryError idx), 1, [], idx + 1⟩
  | (r + 2), attempt, idx =>
      if oracle idx then ⟨.ok (), 1, [], idx + 1⟩
      else
        let res := sendEventsAux oracle (r + 1) (attempt + 1) (idx + 1)
        ⟨res.result, res.attemptsMade + 1, (2 ^ attempt * 1000) :: res.waits, res.nextIdx⟩

/-- `sendEvents(events)`: up to `retryAttempts` attempts starting at loop
counter 1.  The `events` argument only feeds the request body, so the retry
control flow does not depend on it. -/
def sendEvents (cfg : AnalyticsConfig) (_events : List EventData)
    (oracle : Nat → Bool) (idx : Nat) : SendResult :=
  sendEventsAux oracle cfg.retryAttempts 1 idx

/-- Result of one `flush()` call: returned value or thrown error, the state
after the call (the `finally` block has run), the batch that was detached
(empty for the no-op paths), whether a delivery was started at all, and the
attempt bookkeeping of the underlying `sendEvents` call. -/
structure FlushResult where
  result : Except SendError Nat
  state : AnalyticsService
  batch : List EventData
  deliveryStarted : Bool
  attemptsMade : Nat
  waits : List Nat
  nextIdx : Nat
deriving Repr

/-- `flush()`: no-op returning 0 when a flush is in progress or the queue is
empty; otherwise splice the first `batchSize` events off the queue, attempt
delivery, update metrics on either outcome, and reset the in-progress flag
(the `finally` block). -/
def flush (s : AnalyticsService) (oracle : Nat → Bool) (idx : Nat)
    (duration : ℚ) : FlushResult :=
  if s.isFlushInProgress || s.eventQueue.length == 0 then
    ⟨.ok 0, s, [], false, 0, [], idx⟩
  else
    let batch := s.eventQueue.take s.config.batchSize
    let rest := s.eventQueue.drop s.config.batchSize
    let send := sendEvents s.config batch oracle idx
    match send.result with
    | .ok _ =>
        let m1 := { s.metrics with successfulFlushes := s.metrics.successfulFlushes + 1 }
        let m2 := updateAverageFlushTime m1 duration
        ⟨.ok batch.length,
         { s with eventQueue := rest, isFlushInProgress := false, metrics := m2 },
         batch, true, send.attemptsMade, send.waits, send.nextIdx⟩
    | .error e =>
        ⟨.error e,
         { s with eventQueue := rest, isFlushInProgress := false,
                  metrics := { s.metrics with failedFlushes := s.metrics.failedFlushes + 1 } },
         batch, true, send.attemptsMade, send.waits, send.nextIdx⟩

/-- The event literal built at the top of `track`, with its generated
timestamp. -/
def mkEvent (eventType userId : String) (properties : List (String × String))
    (now : Nat) : EventData :=
  { eventType := eventType, userId := userId, properties := properties,
    timestamp := now }

/-- The first half of `track`: build the event, push it onto the queue, bump
`totalEvents`. -/
def trackPush (s : AnalyticsService) (eventType userId : String)
    (properties : List (String × String)) (now : Nat) : AnalyticsService :=
  { s with
      eventQueue := s.eventQueue ++ [mkEvent eventType userId properties now]
      metrics := { s.metrics with totalEvents := s.metrics.totalEvents + 1 } }

/-- Result of one `track()` call: completion or the error propagated from an
auto-triggered flush, the state after the call, the auto-flush outcome when
one was triggered, and the next global attempt index. -/
structure TrackResult where
  result : Except SendError Unit
  state : AnalyticsService
  autoFlush : Option FlushResult
  nextIdx : Nat
deriving Repr

/-- `track(eventType, userId, properties)`: append the event with a generated
timestamp, bump `totalEvents`, and auto-flush (awaited, so its error
propagates) when the queue length has reached `batchSize`. -/
def track (s : AnalyticsService) (eventType userId : String)
    (properties : List (String × String)) (now : Nat)
    (oracle : Nat → Bool) (idx : Nat) (duration : ℚ) : TrackResult :=
  let s1 := trackPush s eventType userId properties now
  if s1.eventQueue.length ≥ s1.config.batchSize then
    let f := flush s1 oracle idx duration
    match f.result with
    | .ok _ => ⟨.ok (), f.state, some f, f.nextIdx⟩
    | .error e => ⟨.error e, f.state, some f, f.nextIdx⟩
  else
    ⟨.ok (), s1, none, idx⟩

/-- Outcome of the `shutdown` drain loop: final state together with the list
of per-flush delivered counts of the successful drain flushes, or the first
propagated error (draining stops there), again with the counts of the
flushes completed before it. -/
inductive DrainOut where
  | ok (s : AnalyticsService) (counts : List Nat)
  | err (e : SendError) (s : AnalyticsService) (counts : List Nat)
deriving Repr

/-- The `while (this.eventQueue.length > 0) await this.flush()` loop of
`shutdown`, with explicit fuel (`none` = fuel exhausted, which for every
fuel value means the loop does not terminate).  `k` counts loop iterations
and selects each flush's observed duration from `durs`. -/
def drainFuel (oracle : Nat → Bool) (durs : Nat → ℚ) :
    Nat → AnalyticsService → Nat → Nat → Option DrainOut
  | 0, _, _, _ => none
  | (fuel + 1), s, idx, k =>
      if s.eventQueue.length == 0 then
        some (.ok s [])
      else
        let f := flush s oracle idx (durs k)
        match f.result with
        | .error e => some (.err e f.state [])
        | .ok n =>
            match drainFuel oracle durs fuel f.state f.nextIdx (k + 1) with
            | none => none
            | some (.ok s' cs) => some (.ok s' (n :: cs))
            | some (.err e s' cs) => some (.err e s' (n :: cs))

/-- `shutdown()`: cancel the periodic timer, then drain the queue by
repeated flushing. -/
def shutdownFuel (oracle : Nat → Bool) (durs : Nat → ℚ) (fuel : Nat)
    (s : AnalyticsService) (idx : Nat) : Option DrainOut :=
  drainFuel oracle durs fuel { s with flushTimerActive := false } idx 0

/-- Did this (returned-or-thrown) flush outcome return normally? -/
def sendOk : Except SendError Nat → Bool
  | .ok _ => true
  | .error _ => false

/-- One externally invoked operation on the service: a `track` call (with the
generated timestamp and, should an auto-flush run, its observed duration) or
an explicit `flush` call with its observed duration. -/
inductive Op where
  | track (eventType userId : String) (properties : List (String × String))
      (now : Nat) (duration : ℚ)
  | flush (duration : ℚ)

/-- Result of running a sequence of operations: final state, next global
attempt index, and the observed durations of the successful flushes that
happened along the way (auto-triggered or explicit), in order. -/
structure RunOut where
  state : AnalyticsService
  nextIdx : Nat
  succDurs : List ℚ

/-- Run a sequence of operations against the service, threading state and
the delivery-attempt index, and collecting the durations of successful
flushes.  A caller that sees a thrown error keeps going, which covers every
interleaving of failed, no-op and successful flushes. -/
def runOps (oracle : Nat → Bool) : List Op → AnalyticsService → Nat → RunOut
  | [], s, idx => ⟨s, idx, []⟩
  | .track et uid props now dur :: ops, s, idx =>
      let t := track s et uid props now oracle idx dur
      let r := runOps oracle ops t.state t.nextIdx
      match t.autoFlush with
      | some f =>
          if f.deliveryStarted && sendOk f.result then ⟨r.state, r.nextIdx, dur :: r.succDurs⟩
          else ⟨r.state, r.nextIdx, r.succDurs⟩
      | none => ⟨r.state, r.nextIdx, r.succDurs⟩
  | .flush dur :: ops, s, idx =>
      let f := flush s oracle idx dur
      let r := runOps oracle ops f.state f.nextIdx
      if f.deliveryStarted && sendOk f.result then ⟨r.state, r.nextIdx, dur :: r.succDurs⟩
      else ⟨r.state, r.nextIdx, r.succDurs⟩

/-- Number of `track` calls in an operation sequence. -/
def countTracks : List Op → Nat
  | [] => 0
  | .track _ _ _ _ _ :: ops => countTracks ops + 1
  | .flush _ :: ops => countTracks ops

/-- The backoff waits (in ms) produced by `n` consecutive failed attempts
that are each followed by another attempt, starting at loop counter
`attempt`: `2 ^ attempt * 1000, 2 ^ (attempt+1) * 1000, ...`. -/
def backoffWaits (attempt : Nat) : Nat → List Nat
  | 0 => []
  | n + 1 => 2 ^ attempt * 1000 :: backoffWaits (attempt + 1) n

/-! Concrete fixtures for the scenario claims and for evaluating the
universally quantified claims at explicit inputs. -/

/-- A configuration with `batchSize = 2` and `retryAttempts = 3` (the
spec's scenario configuration). -/
def cfgW : AnalyticsConfig :=
  { apiEndpoint := "https://analytics.example.com/events", batchSize := 2,
    flushInterval := 30000, retryAttempts := 3 }

/-- A delivery world in which every attempt succeeds. -/
def oracleT : Nat → Bool := fun _ => true

/-- A delivery world in which every attempt fails. -/
def oracleF : Nat → Bool := fun _ => false

/-- Observed flush durations for scenario runs (all zero). -/
def dursZ : Nat → ℚ := fun _ => 0

def evA : EventData := mkEvent "A" "u1" [] 1

def evB : EventData := mkEvent "B" "u1" [] 2

def evC : EventData := mkEvent "C" "u1" [] 3

/-- A service with one pending event. -/
def svc1 : AnalyticsService := { mk' cfgW with eventQueue := [evA] }

/-- A service with three pending events. -/
def svc3 : AnalyticsService := { mk' cfgW with eventQueue := [evA, evB, evC] }

/-- A service with one pending event and a flush already in flight. -/
def svcBusy : AnalyticsService :=
  { mk' cfgW with eventQueue := [evA], isFlushInProgress := true }

/-- A service with five pending events (the shutdown drain scenario). -/
def svc5 : AnalyticsService :=
  { mk' cfgW with eventQueue :=
      [mkEvent "1" "u" [] 1, mkEvent "2" "u" [] 2, mkEvent "3" "u" [] 3,
       mkEvent "4" "u" [] 4, mkEvent "5" "u" [] 5] }

/-- A configuration with `batchSize = 0`: the constructor does not validate
its configuration, so this state is reachable. -/
def cfgZero : AnalyticsConfig :=
  { apiEndpoint := "e", batchSize := 0, flushInterval := 1, retryAttempts := 1 }

/-- A `batchSize = 0` service with one pending event. -/
def svcZero : AnalyticsService := { mk' cfgZero with eventQueue := [evA] }

/-! Helper lemmas about `sendEvents`. -/

/-- If the next delivery attempt succeeds, the retry loop stops after that
one attempt, with no backoff wait. -/
theorem sendEventsAux_ok (oracle : Nat → Bool) (r attempt idx : Nat)
    (hr : 1 ≤ r) (h : oracle idx = true) :
    sendEventsAux oracle r attempt idx = ⟨.ok (), 1, [], idx + 1⟩ := by
  match r, hr with
  | 1, _ => simp [sendEventsAux, h]
  | (n + 2), _ => simp [sendEventsAux, h]

/-- If every one of the next `m + 1` attempts fails, the retry loop makes
exactly `m + 1` attempts, waits `2 ^ attempt, 2 ^ (attempt+1), ...` seconds
between consecutive attempts (none after the last), and ends with the error
of the final attempt. -/
theorem sendEventsAux_allFail (oracle : Nat → Bool) :
    ∀ (m attempt idx : Nat),
    (∀ j, idx ≤ j → j < idx + (m + 1) → oracle j = false) →
    sendEventsAux oracle (m + 1) attempt idx =
      ⟨.error (.deliveryError (idx + m)), m + 1, backoffWaits attempt m, idx + m + 1⟩ := by
  intro m
  induction m with
  | zero =>
      intro attempt idx h
      have h0 : oracle idx = false := h idx (le_refl idx) (by omega)
      simp [sendEventsAux, h0, backoffWaits]
  | succ n ih =>
      intro attempt idx h
      have h0 : oracle idx = false := h idx (le_refl idx) (by omega)
      have hrec := ih (attempt + 1) (idx + 1) (fun j hj1 hj2 => h j (by omega) (by omega))
      simp only [sendEventsAux, h0, Bool.false_eq_true, if_false, hrec, backoffWaits]
      have hx : idx + 1 + n = idx + (n + 1) := by omega
      rw [hx]

/-! Helper lemmas about `flush`. -/

/-- The no-op paths of `flush`: flush in progress or empty queue. -/
theorem flush_noop (s : AnalyticsService) (oracle : Nat → Bool) (idx : Nat)
    (dur : ℚ) (h : s.isFlushInProgress = true ∨ s.eventQueue = []) :
    flush s oracle idx dur = ⟨.ok 0, s, [], false, 0, [], idx⟩ := by
  have hg : (s.isFlushInProgress || s.eventQueue.length == 0) = true := by
    rcases h with h | h <;> simp [h]
  simp [flush, hg]

/-- The guard of `flush` is down when no flush is in progress and the queue
is non-empty. -/
theorem flush_guard_false (s : AnalyticsService)
    (h1 : s.isFlushInProgress = false) (h2 : s.eventQueue ≠ []) :
    (s.isFlushInProgress || s.eventQueue.length == 0) = false := by
  simp [h1, List.length_eq_zero, h2]

/-- `flush` never changes `totalEvents`. -/
theorem flush_totalEvents (s : AnalyticsService) (oracle : Nat → Bool)
    (idx : Nat) (dur : ℚ) :
    (flush s oracle idx dur).state.metrics.totalEvents = s.metrics.totalEvents := by
  unfold flush
  split
  · rfl
  · dsimp only
    split <;> rfl

/-- `flush` never changes the configuration. -/
theorem flush_config (s : AnalyticsService) (oracle : Nat → Bool)
    (idx : Nat) (dur : ℚ) :
    (flush s oracle idx dur).state.config = s.config := by
  unfold flush
  split
  · rfl
  · dsimp only
    split <;> rfl

/-- If no flush was in progress, none is after `flush` returns (the
`finally` block). -/
theorem flush_flag (s : AnalyticsService) (oracle : Nat → Bool)
    (idx : Nat) (dur : ℚ) (h : s.isFlushInProgress = false) :
    (flush s oracle idx dur).state.isFlushInProgress = false := by
  unfold flush
  split
  · exact h
  · dsimp only
    split <;> rfl

/-- Unfolding of the delivering path of `flush` when the send succeeds. -/
theorem flush_run_of_ok (s : AnalyticsService) (oracle : Nat → Bool)
    (idx : Nat) (dur : ℚ)
    (h1 : s.isFlushInProgress = false) (h2 : s.eventQueue ≠ [])
    (hs : (sendEvents s.config (s.eventQueue.take s.config.batchSize) oracle idx).result
            = .ok ()) :
    flush s oracle idx dur =
      ⟨.ok (s.eventQueue.take s.config.batchSize).length,
       { s with eventQueue := s.eventQueue.drop s.config.batchSize,
                isFlushInProgress := false,
                metrics := updateAverageFlushTime
                  { s.metrics with successfulFlushes := s.metrics.successfulFlushes + 1 } dur },
       s.eventQueue.take s.config.batchSize, true,
       (sendEvents s.config (s.eventQueue.take s.config.batchSize) oracle idx).attemptsMade,
       (sendEvents s.config (s.eventQueue.take s.config.batchSize) oracle idx).waits,
       (sendEvents s.config (s.eventQueue.take s.config.batchSize) oracle idx).nextIdx⟩ := by
  have hg := flush_guard_false s h1 h2
  unfold flush
  rw [hg]
  simp only [Bool.false_eq_true, if_false]
  rw [hs]

/-- Unfolding of the delivering path of `flush` when the send fails. -/
theorem flush_run_of_error (s : AnalyticsService) (oracle : Nat → Bool)
    (idx : Nat) (dur : ℚ) (e : SendError)
    (h1 : s.isFlushInProgress = false) (h2 : s.eventQueue ≠ [])
    (hs : (sendEvents s.config (s.eventQueue.take s.config.batchSize) oracle idx).result
            = .error e) :
    flush s oracle idx dur =
      ⟨.error e,
       { s with eventQueue := s.eventQueue.drop s.config.batchSize,
                isFlushInProgress := false,
                metrics := { s.metrics with failedFlushes := s.metrics.failedFlushes + 1 } },
       s.eventQueue.take s.config.batchSize, true,
       (sendEvents s.config (s.eventQueue.take s.config.batchSize) oracle idx).attemptsMade,
       (sendEvents s.config (s.eventQueue.take s.config.batchSize) oracle idx).waits,
       (sendEvents s.config (s.eventQueue.take s.config.batchSize) oracle idx).nextIdx⟩ := by
  have hg := flush_guard_false s h1 h2
  unfold flush
  rw [hg]
  simp only [Bool.false_eq_true, if_false]
  rw [hs]

/-- The `sendEvents` call of an active `flush`, written out, when every
one of its attempts fails. -/
theorem sendEvents_allFail (cfg : AnalyticsConfig) (events : List EventData)
    (oracle : Nat → Bool) (idx : Nat) (m : Nat)
    (hm : cfg.retryAttempts = m + 1)
    (h4 : ∀ j, idx ≤ j → j < idx + cfg.retryAttempts → oracle j = false) :
    sendEvents cfg events oracle idx =
      ⟨.error (.deliveryError (idx + m)), m + 1, backoffWaits 1 m, idx + m + 1⟩ := by
  rw [hm] at h4
  unfold sendEvents
  rw [hm]
  exact sendEventsAux_allFail oracle m 1 idx h4

/-- Core of the exhausted-retries behaviour of `flush`, shared by the
explicit-flush and the auto-flush analyses: failed-flush counter bumped
once, last delivery error re-raised, batch prefix removed, flag down. -/
theorem flush_allFail_core (s : AnalyticsService) (oracle : Nat → Bool)
    (idx : Nat) (dur : ℚ)
    (h1 : s.isFlushInProgress = false) (h2 : s.eventQueue ≠ [])
    (h3 : 1 ≤ s.config.retryAttempts)
    (h4 : ∀ j, idx ≤ j → j < idx + s.config.retryAttempts → oracle j = false) :
    (flush s oracle idx dur).result
        = .error (.deliveryError (idx + s.config.retryAttempts - 1)) ∧
    (flush s oracle idx dur).state.metrics.failedFlushes
        = s.metrics.failedFlushes + 1 ∧
    (flush s oracle idx dur).batch = s.eventQueue.take s.config.batchSize ∧
    (flush s oracle idx dur).state.eventQueue
        = s.eventQueue.drop s.config.batchSize ∧
    (flush s oracle idx dur).state.isFlushInProgress = false := by
  obtain ⟨m, hm⟩ : ∃ m, s.config.retryAttempts = m + 1 :=
    ⟨s.config.retryAttempts - 1, by omega⟩
  have hs := sendEvents_allFail s.config (s.eventQueue.take s.config.batchSize)
    oracle idx m hm h4
  have hrun := flush_run_of_error s oracle idx dur (.deliveryError (idx + m)) h1 h2
    (by rw [hs])
  rw [hrun, hm]
  have hx : idx + (m + 1) - 1 = idx + m := by omega
  rw [hx]
  exact ⟨rfl, rfl, rfl, rfl, rfl⟩

/-- C1: with a non-empty queue, no flush in progress and every delivery
attempt failing, `flush` increments the failed-flush counter exactly once,
re-raises the error of the last delivery attempt, removes the flushed batch
from the queue for good (the new queue is exactly the old queue minus the
batch prefix), and leaves the in-progress flag down so a subsequent flush
can run. -/
theorem flush_allFail_spec (s : AnalyticsService) (oracle : Nat → Bool)
    (idx : Nat) (dur : ℚ)
    (h1 : s.isFlushInProgress = false) (h2 : s.eventQueue ≠ [])
    (h3 : 1 ≤ s.config.retryAttempts)
    (h4 : ∀ j, idx ≤ j → j < idx + s.config.retryAttempts → oracle j = false) :
    (flush s oracle idx dur).result
        = .error (.deliveryError (idx + s.config.retryAttempts - 1)) ∧
    (flush s oracle idx dur).state.metrics.failedFlushes
        = s.metrics.failedFlushes + 1 ∧
    (flush s oracle idx dur).batch = s.eventQueue.take s.config.batchSize ∧
    (flush s oracle idx dur).state.eventQueue
        = s.eventQueue.drop s.config.batchSize ∧
    (flush s oracle idx dur).state.isFlushInProgress = false :=
  flush_allFail_core s oracle idx dur h1 h2 h3 h4

/-- Witness for C1 at a concrete input: one pending event, `retryAttempts
= 3`, every attempt failing. -/
theorem flush_allFail_spec_witness :
    svc1.isFlushInProgress = false ∧ svc1.eventQueue ≠ [] ∧
    1 ≤ svc1.config.retryAttempts ∧
    ((flush svc1 oracleF 0 0).result = .error (.deliveryError 2) ∧
     (flush svc1 oracleF 0 0).state.metrics.failedFlushes
        = svc1.metrics.failedFlushes + 1 ∧
     (flush svc1 oracleF 0 0).batch = svc1.eventQueue.take svc1.config.batchSize ∧
     (flush svc1 oracleF 0 0).state.eventQueue
        = svc1.eventQueue.drop svc1.config.batchSize ∧
     (flush svc1 oracleF 0 0).state.isFlushInProgress = false) :=
  ⟨rfl, by decide, by decide,
   flush_allFail_spec svc1 oracleF 0 0 rfl (by decide) (by decide)
     (fun _ _ _ => rfl)⟩

/-- C2: with a non-empty queue, no flush in progress and a delivery that
succeeds, `flush` returns `min batchSize queueLength`, the removed records
are exactly the oldest prefix of the queue, and the remaining queue is the
untouched remainder in the original order. -/
theorem flush_success_spec (s : AnalyticsService) (oracle : Nat → Bool)
    (idx : Nat) (dur : ℚ)
    (h1 : s.isFlushInProgress = false) (h2 : s.eventQueue ≠ [])
    (h3 : ∃ n, (flush s oracle idx dur).result = .ok n) :
    (flush s oracle idx dur).result
        = .ok (min s.config.batchSize s.eventQueue.length) ∧
    (flush s oracle idx dur).batch = s.eventQueue.take s.config.batchSize ∧
    (flush s oracle idx dur).state.eventQueue
        = s.eventQueue.drop s.config.batchSize ∧
    (flush s oracle idx dur).batch ++ (flush s oracle idx dur).state.eventQueue
        = s.eventQueue := by
  cases hsr : (sendEvents s.config (s.eventQueue.take s.config.batchSize) oracle idx).result with
  | error e =>
      obtain ⟨n, hn⟩ := h3
      rw [flush_run_of_error s oracle idx dur e h1 h2 hsr] at hn
      simp at hn
  | ok u =>
      cases u
      rw [flush_run_of_ok s oracle idx dur h1 h2 hsr]
      refine ⟨?_, rfl, rfl, ?_⟩
      · simp [List.length_take]
      · exact List.take_append_drop s.config.batchSize s.eventQueue

/-- Witness for C2 at a concrete input: three pending events, `batchSize =
2`, delivery succeeding on the first attempt. -/
theorem flush_success_spec_witness :
    svc3.isFlushInProgress = false ∧ svc3.eventQueue ≠ [] ∧
    (∃ n, (flush svc3 oracleT 0 0).result = .ok n) ∧
    ((flush svc3 oracleT 0 0).result
        = .ok (min svc3.config.batchSize svc3.eventQueue.length) ∧
     (flush svc3 oracleT 0 0).batch = svc3.eventQueue.take svc3.config.batchSize ∧
     (flush svc3 oracleT 0 0).state.eventQueue
        = svc3.eventQueue.drop svc3.config.batchSize ∧
     (flush svc3 oracleT 0 0).batch ++ (flush svc3 oracleT 0 0).state.eventQueue
        = svc3.eventQueue) :=
  ⟨rfl, by decide, ⟨2, rfl⟩,
   flush_success_spec svc3 oracleT 0 0 rfl (by decide) ⟨2, rfl⟩⟩

/-- C3: a `flush` that finds a flush already in progress or an empty queue
returns 0 without error, starts no delivery attempt, and changes nothing:
the state (queue and metrics included) is returned untouched. -/
theorem flush_noop_spec (s : AnalyticsService) (oracle : Nat → Bool)
    (idx : Nat) (dur : ℚ)
    (h : s.isFlushInProgress = true ∨ s.eventQueue = []) :
    (flush s oracle idx dur).result = .ok 0 ∧
    (flush s oracle idx dur).state = s ∧
    (flush s oracle idx dur).deliveryStarted = false ∧
    (flush s oracle idx dur).attemptsMade = 0 := by
  rw [flush_noop s oracle idx dur h]
  exact ⟨rfl, rfl, rfl, rfl⟩

/-- Witness for C3 at concrete inputs: a flush already in flight (and, for
the other disjunct, the claim holds of the freshly constructed service with
its empty queue via the same theorem). -/
theorem flush_noop_spec_witness :
    (svcBusy.isFlushInProgress = true ∨ svcBusy.eventQueue = []) ∧
    ((flush svcBusy oracleT 0 0).result = .ok 0 ∧
     (flush svcBusy oracleT 0 0).state = svcBusy ∧
     (flush svcBusy oracleT 0 0).deliveryStarted = false ∧
     (flush svcBusy oracleT 0 0).attemptsMade = 0) :=
  ⟨Or.inl rfl, flush_noop_spec svcBusy oracleT 0 0 (Or.inl rfl)⟩

/-- C6: with `retryAttempts = 3` and every attempt failing, a flush of a
non-empty queue makes exactly 3 attempts, waits `2^1 * 1000` ms after the
first failure and `2^2 * 1000` ms after the second (and nothing after the
third), throws the error of the last attempt, and bumps the failed-flush
count by exactly one. -/
theorem flush_retry3_spec (s : AnalyticsService) (oracle : Nat → Bool)
    (idx : Nat) (dur : ℚ)
    (h1 : s.isFlushInProgress = false) (h2 : s.eventQueue ≠ [])
    (h3 : s.config.retryAttempts = 3)
    (h4 : ∀ j, idx ≤ j → j < idx + s.config.retryAttempts → oracle j = false) :
    (flush s oracle idx dur).attemptsMade = 3 ∧
    (flush s oracle idx dur).waits = [2 ^ 1 * 1000, 2 ^ 2 * 1000] ∧
    (flush s oracle idx dur).result = .error (.deliveryError (idx + 2)) ∧
    (flush s oracle idx dur).state.metrics.failedFlushes
        = s.metrics.failedFlushes + 1 := by
  have hs := sendEvents_allFail s.config (s.eventQueue.take s.config.batchSize)
    oracle idx 2 h3 h4
  have hrun := flush_run_of_error s oracle idx dur (.deliveryError (idx + 2)) h1 h2
    (by rw [hs])
  rw [hrun, hs]
  exact ⟨rfl, rfl, rfl, rfl⟩

/-- Witness for C6 at a concrete input: one pending event, `retryAttempts =
3`, every attempt failing. -/
theorem flush_retry3_spec_witness :
    svc1.isFlushInProgress = false ∧ svc1.eventQueue ≠ [] ∧
    svc1.config.retryAttempts = 3 ∧
    ((flush svc1 oracleF 5 0).attemptsMade = 3 ∧
     (flush svc1 oracleF 5 0).waits = [2 ^ 1 * 1000, 2 ^ 2 * 1000] ∧
     (flush svc1 oracleF 5 0).result = .error (.deliveryError 7) ∧
     (flush svc1 oracleF 5 0).state.metrics.failedFlushes
        = svc1.metrics.failedFlushes + 1) :=
  ⟨rfl, by decide, rfl,
   flush_retry3_spec svc1 oracleF 5 0 rfl (by decide) rfl (fun _ _ _ => rfl)⟩

/-- A flush whose guard is up decomposes into flag and queue facts. -/
theorem guard_false_elim (s : AnalyticsService)
    (hg : (s.isFlushInProgress || s.eventQueue.length == 0) = false) :
    s.isFlushInProgress = false ∧ s.eventQueue ≠ [] := by
  simp only [Bool.or_eq_false_iff, beq_eq_false_iff_ne, ne_eq,
    List.length_eq_zero] at hg
  exact hg

/-- A flush counted as successful (delivery started and no error) bumps the
successful-flush count by one and folds its duration into the running
average. -/
theorem flush_succCase (s : AnalyticsService) (oracle : Nat → Bool)
    (idx : Nat) (dur : ℚ)
    (h : ((flush s oracle idx dur).deliveryStarted
            && sendOk (flush s oracle idx dur).result) = true) :
    (flush s oracle idx dur).state.metrics.successfulFlushes
        = s.metrics.successfulFlushes + 1 ∧
    (flush s oracle idx dur).state.metrics.averageFlushTime
        = (s.metrics.averageFlushTime * ((s.metrics.successfulFlushes : ℚ) + 1 - 1) + dur)
            / ((s.metrics.successfulFlushes : ℚ) + 1) := by
  by_cases hg : (s.isFlushInProgress || s.eventQueue.length == 0) = true
  · rw [show flush s oracle idx dur = ⟨.ok 0, s, [], false, 0, [], idx⟩ from by
      simp [flush, hg]] at h
    simp at h
  · have hg' : (s.isFlushInProgress || s.eventQueue.length == 0) = false :=
      Bool.eq_false_iff.mpr hg
    obtain ⟨h1, h2⟩ := guard_false_elim s hg'
    cases hsr : (sendEvents s.config (s.eventQueue.take s.config.batchSize) oracle idx).result with
    | error e =>
        rw [flush_run_of_error s oracle idx dur e h1 h2 hsr] at h
        simp [sendOk] at h
    | ok u =>
        cases u
        rw [flush_run_of_ok s oracle idx dur h1 h2 hsr]
        constructor
        · rfl
        · show (updateAverageFlushTime
              { s.metrics with successfulFlushes := s.metrics.successfulFlushes + 1 }
              dur).averageFlushTime = _
          simp only [updateAverageFlushTime]
          push_cast
          ring_nf

/-- A flush not counted as successful (no-op, or delivery failed) leaves
the successful-flush count and the running average untouched. -/
theorem flush_succCase_not (s : AnalyticsService) (oracle : Nat → Bool)
    (idx : Nat) (dur : ℚ)
    (h : ((flush s oracle idx dur).deliveryStarted
            && sendOk (flush s oracle idx dur).result) = false) :
    (flush s oracle idx dur).state.metrics.successfulFlushes
        = s.metrics.successfulFlushes ∧
    (flush s oracle idx dur).state.metrics.averageFlushTime
        = s.metrics.averageFlushTime := by
  by_cases hg : (s.isFlushInProgress || s.eventQueue.length == 0) = true
  · rw [show flush s oracle idx dur = ⟨.ok 0, s, [], false, 0, [], idx⟩ from by
      simp [flush, hg]]
    exact ⟨rfl, rfl⟩
  · have hg' : (s.isFlushInProgress || s.eventQueue.length == 0) = false :=
      Bool.eq_false_iff.mpr hg
    obtain ⟨h1, h2⟩ := guard_false_elim s hg'
    cases hsr : (sendEvents s.config (s.eventQueue.take s.config.batchSize) oracle idx).result with
    | error e =>
        rw [flush_run_of_error s oracle idx dur e h1 h2 hsr]
        exact ⟨rfl, rfl⟩
    | ok u =>
        cases u
        rw [flush_run_of_ok s oracle idx dur h1 h2 hsr] at h
        simp [sendOk] at h

/-! Helper lemmas about `track`. -/

/-- When the push does not reach the batch size, `track` is just the push:
no auto-flush. -/
theorem track_noAuto (s : AnalyticsService) (eventType userId : String)
    (properties : List (String × String)) (now : Nat)
    (oracle : Nat → Bool) (idx : Nat) (dur : ℚ)
    (hlt : ¬ (trackPush s eventType userId properties now).eventQueue.length
              ≥ (trackPush s eventType userId properties now).config.batchSize) :
    track s eventType userId properties now oracle idx dur
      = ⟨.ok (), trackPush s eventType userId properties now, none, idx⟩ := by
  unfold track
  rw [if_neg hlt]

/-- When the push reaches the batch size, `track` runs `flush` on the pushed
state, records it as the auto-flush, adopts its state and attempt index, and
mirrors its outcome. -/
theorem track_auto (s : AnalyticsService) (eventType userId : String)
    (properties : List (String × String)) (now : Nat)
    (oracle : Nat → Bool) (idx : Nat) (dur : ℚ)
    (hge : (trackPush s eventType userId properties now).eventQueue.length
              ≥ (trackPush s eventType userId properties now).config.batchSize) :
    (track s eventType userId properties now oracle idx dur).state
        = (flush (trackPush s eventType userId properties now) oracle idx dur).state ∧
    (track s eventType userId properties now oracle idx dur).autoFlush
        = some (flush (trackPush s eventType userId properties now) oracle idx dur) ∧
    (track s eventType userId properties now oracle idx dur).nextIdx
        = (flush (trackPush s eventType userId properties now) oracle idx dur).nextIdx := by
  unfold track
  rw [if_pos hge]
  dsimp only
  split <;> exact ⟨rfl, rfl, rfl⟩

/-- When the push reaches the batch size and the auto-flush throws, `track`
re-throws that very error. -/
theorem track_auto_of_error (s : AnalyticsService) (eventType userId : String)
    (properties : List (String × String)) (now : Nat)
    (oracle : Nat → Bool) (idx : Nat) (dur : ℚ) (e : SendError)
    (hge : (trackPush s eventType userId properties now).eventQueue.length
              ≥ (trackPush s eventType userId properties now).config.batchSize)
    (he : (flush (trackPush s eventType userId properties now) oracle idx dur).result
            = .error e) :
    track s eventType userId properties now oracle idx dur
      = ⟨.error e,
         (flush (trackPush s eventType userId properties now) oracle idx dur).state,
         some (flush (trackPush s eventType userId properties now) oracle idx dur),
         (flush (trackPush s eventType userId properties now) oracle idx dur).nextIdx⟩ := by
  unfold track
  rw [if_pos hge]
  dsimp only
  rw [he]

/-- `track` always bumps `totalEvents` by exactly one, whatever the
auto-flush does. -/
theorem track_totalEvents (s : AnalyticsService) (eventType userId : String)
    (properties : List (String × String)) (now : Nat)
    (oracle : Nat → Bool) (idx : Nat) (dur : ℚ) :
    (track s eventType userId properties now oracle idx dur).state.metrics.totalEvents
      = s.metrics.totalEvents + 1 := by
  unfold track
  dsimp only
  split
  · split <;> · rw [flush_totalEvents]; rfl
  · rfl

/-! The run invariant: over any operation sequence, `totalEvents` counts the
`track` calls, `successfulFlushes` counts the successful flushes, and the
running average times the successful-flush count equals the sum of the
successful flushes' durations. -/

theorem runOps_invariant (oracle : Nat → Bool) :
    ∀ (ops : List Op) (s : AnalyticsService) (idx : Nat),
    (runOps oracle ops s idx).state.metrics.totalEvents
        = s.metrics.totalEvents + countTracks ops ∧
    (runOps oracle ops s idx).state.metrics.successfulFlushes
        = s.metrics.successfulFlushes + (runOps oracle ops s idx).succDurs.length ∧
    (runOps oracle ops s idx).state.metrics.averageFlushTime
          * ((runOps oracle ops s idx).state.metrics.successfulFlushes : ℚ)
        = s.metrics.averageFlushTime * (s.metrics.successfulFlushes : ℚ)
          + (runOps oracle ops s idx).succDurs.sum := by
  intro ops
  induction ops with
  | nil =>
      intro s idx
      simp [runOps, countTracks]
  | cons op ops ih =>
      intro s idx
      cases op with
      | flush dur =>
          simp only [runOps, countTracks]
          by_cases hc : ((flush s oracle idx dur).deliveryStarted
              && sendOk (flush s oracle idx dur).result) = true
          · rw [if_pos hc]
            dsimp only
            obtain ⟨ihte, ihsf, ihavg⟩ :=
              ih (flush s oracle idx dur).state (flush s oracle idx dur).nextIdx
            obtain ⟨hsf, havg⟩ := flush_succCase s oracle idx dur hc
            refine ⟨?_, ?_, ?_⟩
            · rw [ihte, flush_totalEvents]
            · rw [ihsf, hsf, List.length_cons]
              omega
            · rw [ihavg, hsf, havg, List.sum_cons]
              have hne : ((s.metrics.successfulFlushes : ℚ) + 1) ≠ 0 := by positivity
              push_cast
              rw [div_mul_cancel₀ _ hne]
              ring
          · rw [if_neg hc]
            dsimp only
            obtain ⟨ihte, ihsf, ihavg⟩ :=
              ih (flush s oracle idx dur).state (flush s oracle idx dur).nextIdx
            obtain ⟨hsf, havg⟩ := flush_succCase_not s oracle idx dur
              (Bool.eq_false_iff.mpr hc)
            exact ⟨by rw [ihte, flush_totalEvents], by rw [ihsf, hsf],
                   by rw [ihavg, hsf, havg]⟩
      | track et uid props now dur =>
          simp only [runOps, countTracks]
          cases hta : (track s et uid props now oracle idx dur).autoFlush with
          | none =>
              by_cases hcond : (trackPush s et uid props now).eventQueue.length
                  ≥ (trackPush s et uid props now).config.batchSize
              · obtain ⟨_, hsome, _⟩ := track_auto s et uid props now oracle idx dur hcond
                rw [hta] at hsome
                cases hsome
              · have htrk := track_noAuto s et uid props now oracle idx dur hcond
                rw [htrk]
                dsimp only
                obtain ⟨ihte, ihsf, ihavg⟩ := ih (trackPush s et uid props now) idx
                have hte1 : (trackPush s et uid props now).metrics.totalEvents
                    = s.metrics.totalEvents + 1 := rfl
                have hsf1 : (trackPush s et uid props now).metrics.successfulFlushes
                    = s.metrics.successfulFlushes := rfl
                have havg1 : (trackPush s et uid props now).metrics.averageFlushTime
                    = s.metrics.averageFlushTime := rfl
                refine ⟨?_, ?_, ?_⟩
                · rw [ihte, hte1]; omega
                · rw [ihsf, hsf1]
                · rw [ihavg, hsf1, havg1]
          | some f =>
              by_cases hcond : (trackPush s et uid props now).eventQueue.length
                  ≥ (trackPush s et uid props now).config.batchSize
              · obtain ⟨hst, hsome, hidx⟩ := track_auto s et uid props now oracle idx dur hcond
                rw [hta] at hsome
                have hf : f = flush (trackPush s et uid props now) oracle idx dur :=
                  Option.some.inj hsome
                subst hf
                dsimp only
                rw [hst, hidx]
                have hte1 : (trackPush s et uid props now).metrics.totalEvents
                    = s.metrics.totalEvents + 1 := rfl
                have hsf1 : (trackPush s et uid props now).metrics.successfulFlushes
                    = s.metrics.successfulFlushes := rfl
                have havg1 : (trackPush s et uid props now).metrics.averageFlushTime
                    = s.metrics.averageFlushTime := rfl
                obtain ⟨ihte, ihsf, ihavg⟩ :=
                  ih (flush (trackPush s et uid props now) oracle idx dur).state
                     (flush (trackPush s et uid props now) oracle idx dur).nextIdx
                by_cases hc : ((flush (trackPush s et uid props now) oracle idx dur).deliveryStarted
                    && sendOk (flush (trackPush s et uid props now) oracle idx dur).result) = true
                · rw [if_pos hc]
                  dsimp only
                  obtain ⟨hsf, havg⟩ :=
                    flush_succCase (trackPush s et uid props now) oracle idx dur hc
                  refine ⟨?_, ?_, ?_⟩
                  · rw [ihte, flush_totalEvents, hte1]; omega
                  · rw [ihsf, hsf, hsf1, List.length_cons]
                    omega
                  · rw [ihavg, hsf, havg, hsf1, havg1, List.sum_cons]
                    have hne : ((s.metrics.successfulFlushes : ℚ) + 1) ≠ 0 := by positivity
                    push_cast
                    rw [div_mul_cancel₀ _ hne]
                    ring
                · rw [if_neg hc]
                  dsimp only
                  obtain ⟨hsf, havg⟩ :=
                    flush_succCase_not (trackPush s et uid props now) oracle idx dur
                      (Bool.eq_false_iff.mpr hc)
                  refine ⟨?_, ?_, ?_⟩
                  · rw [ihte, flush_totalEvents, hte1]; omega
                  · rw [ihsf, hsf, hsf1]
                  · rw [ihavg, hsf, havg, hsf1, havg1]
              · have htrk := track_noAuto s et uid props now oracle idx dur hcond
                rw [htrk] at hta
                cases hta

/-- C4: after any operation sequence whose successful flushes observed the
durations `succDurs` (failed and no-op flushes interleaved at will), the
average flush time equals their arithmetic mean.  The average can only be
computed incrementally: `Metrics` stores no duration history, and
`updateAverageFlushTime` reads just the prior average and the
successful-flush count. -/
theorem averageFlushTime_is_mean (cfg : AnalyticsConfig) (oracle : Nat → Bool)
    (ops : List Op) (idx : Nat)
    (hk : (runOps oracle ops (mk' cfg) idx).succDurs ≠ []) :
    (runOps oracle ops (mk' cfg) idx).state.metrics.averageFlushTime
      = (runOps oracle ops (mk' cfg) idx).succDurs.sum
          / ((runOps oracle ops (mk' cfg) idx).succDurs.length : ℚ) := by
  obtain ⟨_, hsf, havg⟩ := runOps_invariant oracle ops (mk' cfg) idx
  have h0sf : (mk' cfg).metrics.successfulFlushes = 0 := rfl
  have h0avg : (mk' cfg).metrics.averageFlushTime = 0 := rfl
  rw [h0sf] at hsf
  rw [h0avg, h0sf] at havg
  simp only [Nat.zero_add] at hsf
  simp only [Nat.cast_zero, zero_mul, zero_add] at havg
  have hlen0 : (runOps oracle ops (mk' cfg) idx).succDurs.length ≠ 0 := by
    simpa [List.length_eq_zero] using hk
  have hlen : ((runOps oracle ops (mk' cfg) idx).succDurs.length : ℚ) ≠ 0 :=
    Nat.cast_ne_zero.mpr hlen0
  rw [eq_div_iff hlen, ← hsf]
  exact havg

/-- Witness for C4 at a concrete input: one tracked event, then one explicit
successful flush with duration 10, giving average `10 = 10 / 1`. -/
theorem averageFlushTime_is_mean_witness :
    (runOps oracleT [Op.track "A" "u1" [] 1 0, Op.flush 10] (mk' cfgW) 0).succDurs ≠ [] ∧
    (runOps oracleT [Op.track "A" "u1" [] 1 0, Op.flush 10] (mk' cfgW) 0).state.metrics.averageFlushTime
      = (runOps oracleT [Op.track "A" "u1" [] 1 0, Op.flush 10] (mk' cfgW) 0).succDurs.sum
          / ((runOps oracleT [Op.track "A" "u1" [] 1 0, Op.flush 10] (mk' cfgW) 0).succDurs.length : ℚ) :=
  ⟨by decide,
   averageFlushTime_is_mean cfgW oracleT [Op.track "A" "u1" [] 1 0, Op.flush 10] 0
     (by decide)⟩

/-- C5: over every operation sequence from a fresh service, `totalEvents`
equals the number of `track` calls made, whatever the interleaved flushes
did; and each `track` call appends exactly its one event, carrying the
generated timestamp, to the end of the pending queue. -/
theorem totalEvents_counts_records :
    (∀ (cfg : AnalyticsConfig) (oracle : Nat → Bool) (ops : List Op) (idx : Nat),
      (runOps oracle ops (mk' cfg) idx).state.metrics.totalEvents = countTracks ops) ∧
    (∀ (s : AnalyticsService) (et uid : String)
        (props : List (String × String)) (now : Nat),
      (trackPush s et uid props now).eventQueue
        = s.eventQueue ++ [mkEvent et uid props now]) := by
  constructor
  · intro cfg oracle ops idx
    obtain ⟨hte, _, _⟩ := runOps_invariant oracle ops (mk' cfg) idx
    have h0 : (mk' cfg).metrics.totalEvents = 0 := rfl
    rw [h0] at hte
    omega
  · intro s et uid props now
    rfl

/-- C7: with `batchSize = 2` and deliveries succeeding, tracking A, B, C in
order auto-flushes exactly once — at the moment B makes the queue length 2 —
delivering `[A, B]` and leaving `[C]` pending; a subsequent explicit flush
delivers `[C]` alone and returns 1. -/
theorem scenario_batch2_autoFlush :
    (let s0 := mk' cfgW
     let t1 := track s0 "A" "u1" [] 1 oracleT 0 0
     let t2 := track t1.state "B" "u1" [] 2 oracleT t1.nextIdx 0
     let t3 := track t2.state "C" "u1" [] 3 oracleT t2.nextIdx 0
     let f := flush t3.state oracleT t3.nextIdx 0
     t1.autoFlush = none ∧ t1.state.eventQueue = [mkEvent "A" "u1" [] 1] ∧
     (∃ g, t2.autoFlush = some g ∧
        g.batch = [mkEvent "A" "u1" [] 1, mkEvent "B" "u1" [] 2] ∧ g.result = .ok 2) ∧
     t2.state.eventQueue = [] ∧
     t2.state.metrics.successfulFlushes = 1 ∧
     t3.autoFlush = none ∧ t3.state.eventQueue = [mkEvent "C" "u1" [] 3] ∧
     f.result = .ok 1 ∧ f.batch = [mkEvent "C" "u1" [] 3] ∧ f.state.eventQueue = []) := by
  refine ⟨rfl, rfl, ⟨_, rfl, rfl, rfl⟩, rfl, rfl, rfl, rfl, rfl, rfl, rfl⟩

/-- C8: `shutdown` with 5 pending events and `batchSize = 2` drains in three
flushes delivering 2, 2, 1 events and stops the periodic timer; and when the
first drain flush fails, its error propagates out of `shutdown` and the
drain stops right there (here: after one failed flush that dropped its batch
of 2, leaving 3 events behind). -/
theorem scenario_shutdown_drain :
    (∃ s', shutdownFuel oracleT dursZ 10 svc5 0 = some (.ok s' [2, 2, 1]) ∧
       s'.eventQueue = [] ∧ s'.flushTimerActive = false ∧
       s'.metrics.successfulFlushes = 3) ∧
    (∃ e s'', shutdownFuel oracleF dursZ 10 svc5 0 = some (.err e s'' []) ∧
       s''.flushTimerActive = false ∧ s''.metrics.failedFlushes = 1 ∧
       s''.eventQueue.length = 3) := by
  exact ⟨⟨_, rfl, rfl, rfl, rfl⟩, ⟨_, _, rfl, rfl, rfl, rfl⟩⟩

/-- On the delivering path, the queue afterwards is the old queue with its
first `batchSize` records removed, whether delivery succeeded or failed. -/
theorem flush_queue (s : AnalyticsService) (oracle : Nat → Bool) (idx : Nat)
    (dur : ℚ) (h1 : s.isFlushInProgress = false) (h2 : s.eventQueue ≠ []) :
    (flush s oracle idx dur).state.eventQueue
      = s.eventQueue.drop s.config.batchSize := by
  cases hsr : (sendEvents s.config (s.eventQueue.take s.config.batchSize) oracle idx).result with
  | error e => rw [flush_run_of_error s oracle idx dur e h1 h2 hsr]
  | ok u => cases u; rw [flush_run_of_ok s oracle idx dur h1 h2 hsr]

/-- With `batchSize = 0`, one successful retry attempt and a non-empty
queue, each drain iteration flushes an empty batch, delivers it, removes
nothing, and loops: the drain never completes, for any fuel. -/
theorem drainFuel_none_of_batchSize_zero (durs : Nat → ℚ) :
    ∀ (n : Nat) (s : AnalyticsService) (idx k : Nat),
    s.config.batchSize = 0 → s.config.retryAttempts = 1 →
    s.isFlushInProgress = false → s.eventQueue ≠ [] →
    drainFuel oracleT durs n s idx k = none := by
  intro n
  induction n with
  | zero => intro s idx k _ _ _ _; rfl
  | succ m ih =>
      intro s idx k hbs hra hflag hne
      have hg : (s.eventQueue.length == 0) = false := by
        simp [List.length_eq_zero, hne]
      have hsr : (sendEvents s.config (s.eventQueue.take s.config.batchSize) oracleT idx).result
          = .ok () := by
        unfold sendEvents
        rw [hra, sendEventsAux_ok oracleT 1 1 idx (le_refl 1) rfl]
      have hrun := flush_run_of_ok s oracleT idx (durs k) hflag hne hsr
      have hres : (flush s oracleT idx (durs k)).result
          = .ok (s.eventQueue.take s.config.batchSize).length := by rw [hrun]
      have hnone := ih (flush s oracleT idx (durs k)).state
          (flush s oracleT idx (durs k)).nextIdx (k + 1)
          (by rw [flush_config]; exact hbs)
          (by rw [flush_config]; exact hra)
          (flush_flag s oracleT idx (durs k) hflag)
          (by rw [flush_queue s oracleT idx (durs k) hflag hne, hbs, List.drop_zero]
              exact hne)
      rw [drainFuel]
      rw [hg]
      simp only [Bool.false_eq_true, if_false]
      rw [hres, hnone]

/-- C9 counterexample: for the reachable dispatcher state with
`batchSize = 0`, one pending event, deliveries succeeding and no flush in
progress, the `shutdown` drain loop never terminates — no amount of fuel
completes it — even though no flush was in progress when `shutdown` was
called.  The claim's guarantee therefore needs `batchSize ≥ 1`. -/
theorem shutdown_batchSizeZero_counterexample :
    ¬ ∃ n, (shutdownFuel oracleT dursZ n svcZero 0).isSome = true := by
  rintro ⟨n, hn⟩
  unfold shutdownFuel at hn
  rw [drainFuel_none_of_batchSize_zero dursZ n
    { svcZero with flushTimerActive := false } 0 0 rfl rfl rfl (by decide)] at hn
  simp at hn

/-- C9 (amended with `1 ≤ batchSize`): when no flush is in progress at the
time of the call and the configured batch size is at least one, the
`shutdown` drain loop terminates within `queueLength + 1` iterations: every
iteration either removes `min(batchSize, queueLength) ≥ 1` events from the
non-empty queue or propagates the delivery error out of `shutdown`. -/
theorem shutdown_terminates (oracle : Nat → Bool) (durs : Nat → ℚ)
    (s : AnalyticsService) (idx : Nat)
    (h1 : s.isFlushInProgress = false) (h2 : 1 ≤ s.config.batchSize) :
    (shutdownFuel oracle durs (s.eventQueue.length + 1) s idx).isSome = true := by
  have main : ∀ (len : Nat) (s : AnalyticsService) (idx k : Nat),
      s.eventQueue.length ≤ len → s.isFlushInProgress = false →
      1 ≤ s.config.batchSize →
      (drainFuel oracle durs (len + 1) s idx k).isSome = true := by
    intro len
    induction len with
    | zero =>
        intro s idx k hlen _ _
        have hq : s.eventQueue = [] := by
          rw [← List.length_eq_zero]; omega
        simp [drainFuel, hq]
    | succ m ih =>
        intro s idx k hlen hflag hbs
        by_cases hq : s.eventQueue = []
        · simp [drainFuel, hq]
        · have hg : (s.eventQueue.length == 0) = false := by
            simp [List.length_eq_zero, hq]
          rw [drainFuel]
          rw [hg]
          simp only [Bool.false_eq_true, if_false]
          cases hr : (flush s oracle idx (durs k)).result with
          | error e => rfl
          | ok n =>
              have hlen' : (flush s oracle idx (durs k)).state.eventQueue.length ≤ m := by
                rw [flush_queue s oracle idx (durs k) hflag hq]
                have hpos : 0 < s.eventQueue.length := List.length_pos.mpr hq
                simp only [List.length_drop]
                omega
              have hrec := ih (flush s oracle idx (durs k)).state
                (flush s oracle idx (durs k)).nextIdx (k + 1) hlen'
                (flush_flag s oracle idx (durs k) hflag)
                (by rw [flush_config]; exact hbs)
              cases hdf : drainFuel oracle durs (m + 1)
                  (flush s oracle idx (durs k)).state
                  (flush s oracle idx (durs k)).nextIdx (k + 1) with
              | none => rw [hdf] at hrec; simp at hrec
              | some v => cases v <;> rfl
  unfold shutdownFuel
  exact main s.eventQueue.length { s with flushTimerActive := false } idx 0
    (le_refl _) h1 h2

/-- Witness for the amended C9 at a concrete input: one pending event,
`batchSize = 2`, drain completes with fuel `1 + 1`. -/
theorem shutdown_terminates_witness :
    svc1.isFlushInProgress = false ∧ 1 ≤ svc1.config.batchSize ∧
    (shutdownFuel oracleT dursZ (svc1.eventQueue.length + 1) svc1 0).isSome = true :=
  ⟨rfl, by decide, shutdown_terminates oracleT dursZ svc1 0 rfl (by decide)⟩

/-- C10: when a `track` call brings the queue up to `batchSize` and the
auto-triggered flush exhausts its retries, the delivery error propagates
out of `track` to its caller; the tracked event was nevertheless appended
(it sits in the attempted batch) and counted in `totalEvents`, and the
failed batch is dropped, leaving the queue empty. -/
theorem track_autoFlush_fail_spec (s : AnalyticsService) (et uid : String)
    (props : List (String × String)) (now : Nat) (oracle : Nat → Bool)
    (idx : Nat) (dur : ℚ)
    (h1 : s.isFlushInProgress = false)
    (h2 : s.eventQueue.length + 1 = s.config.batchSize)
    (h3 : 1 ≤ s.config.retryAttempts)
    (h4 : ∀ j, idx ≤ j → j < idx + s.config.retryAttempts → oracle j = false) :
    (track s et uid props now oracle idx dur).result
        = .error (.deliveryError (idx + s.config.retryAttempts - 1)) ∧
    (track s et uid props now oracle idx dur).state.metrics.totalEvents
        = s.metrics.totalEvents + 1 ∧
    (track s et uid props now oracle idx dur).state.metrics.failedFlushes
        = s.metrics.failedFlushes + 1 ∧
    (∃ g, (track s et uid props now oracle idx dur).autoFlush = some g ∧
       g.batch = s.eventQueue ++ [mkEvent et uid props now]) ∧
    (track s et uid props now oracle idx dur).state.eventQueue = [] := by
  have hq1 : (trackPush s et uid props now).eventQueue
      = s.eventQueue ++ [mkEvent et uid props now] := rfl
  have hlen1 : (trackPush s et uid props now).eventQueue.length
      = s.config.batchSize := by
    rw [hq1, List.length_append]
    simpa using h2
  have hge : (trackPush s et uid props now).eventQueue.length
      ≥ (trackPush s et uid props now).config.batchSize := le_of_eq hlen1.symm
  have hne1 : (trackPush s et uid props now).eventQueue ≠ [] := by
    rw [hq1]; simp
  obtain ⟨hres, hfailed, hbatch, hqueue, _⟩ :=
    flush_allFail_core (trackPush s et uid props now) oracle idx dur h1 hne1 h3 h4
  have htrk := track_auto_of_error s et uid props now oracle idx dur
    (.deliveryError (idx + s.config.retryAttempts - 1)) hge hres
  rw [htrk]
  refine ⟨rfl, ?_, ?_, ⟨_, rfl, ?_⟩, ?_⟩
  · rw [flush_totalEvents]; rfl
  · rw [hfailed]; rfl
  · rw [hbatch]
    show (trackPush s et uid props now).eventQueue.take
        (trackPush s et uid props now).config.batchSize = _
    rw [show (trackPush s et uid props now).config.batchSize
          = (trackPush s et uid props now).eventQueue.length from hlen1.symm,
        List.take_length, hq1]
  · rw [hqueue]
    show (trackPush s et uid props now).eventQueue.drop
        (trackPush s et uid props now).config.batchSize = _
    rw [show (trackPush s et uid props now).config.batchSize
          = (trackPush s et uid props now).eventQueue.length from hlen1.symm,
        List.drop_length]

/-- Witness for C10 at a concrete input: one pending event, `batchSize = 2`,
tracking a second event with every delivery attempt failing. -/
theorem track_autoFlush_fail_spec_witness :
    svc1.isFlushInProgress = false ∧
    svc1.eventQueue.length + 1 = svc1.config.batchSize ∧
    1 ≤ svc1.config.retryAttempts ∧
    ((track svc1 "B" "u1" [] 2 oracleF 0 0).result = .error (.deliveryError 2) ∧
     (track svc1 "B" "u1" [] 2 oracleF 0 0).state.metrics.totalEvents
        = svc1.metrics.totalEvents + 1 ∧
     (track svc1 "B" "u1" [] 2 oracleF 0 0).state.metrics.failedFlushes
        = svc1.metrics.failedFlushes + 1 ∧
     (∃ g, (track svc1 "B" "u1" [] 2 oracleF 0 0).autoFlush = some g ∧
        g.batch = svc1.eventQueue ++ [mkEvent "B" "u1" [] 2]) ∧
     (track svc1 "B" "u1" [] 2 oracleF 0 0).state.eventQueue = []) :=
  ⟨rfl, rfl, by decide,
   track_autoFlush_fail_spec svc1 "B" "u1" [] 2 oracleF 0 0 rfl rfl (by decide)
     (fun _ _ _ => rfl)⟩

end AnalyticsService
